import Mathlib

/-!
Verification development for the speech-to-text consultation front-end.

We shallowly embed the transcription pipeline modules:
  * `LiveT`  — src/src/utils/liveTranscription.ts (`LiveTranscriptionService`)
  * `RealT`  — src/src/utils/realtimeTranscription.ts (`RealtimeTranscriptionService`)
  * `MultiT` — src/src/utils/multilingualTranscription.ts (`MultilingualTranscriptionService`)
  * `MedPipe` — src/src/utils/chatGPTMedicalPipeline.ts (`ChatGPTMedicalPipeline.isEnglish`)
  * `RtUI`   — src/src/components/RealtimeConsultation.tsx (transcript combination)

Network effects (fetch) are modelled by environment records carrying the
outcome of each remote call, and by an explicit list of emitted requests.
JavaScript numbers used for sizes/counters are modelled as `Nat`;
the float constant 0.85 (a stored confidence score, never computed with)
as the exact scaled integer 85 (hundredths).
-/

/-- Decidable equality for `Except`, needed to evaluate pipeline outcomes on
concrete inputs. -/
instance exceptDecEq {e a : Type} [DecidableEq e] [DecidableEq a] :
    DecidableEq (Except e a)
  | Except.error x, Except.error y =>
    if h : x = y then Decidable.isTrue (by rw [h])
    else Decidable.isFalse (fun hh => h (Except.error.inj hh))
  | Except.error _, Except.ok _ => Decidable.isFalse (fun hh => Except.noConfusion hh)
  | Except.ok _, Except.error _ => Decidable.isFalse (fun hh => Except.noConfusion hh)
  | Except.ok x, Except.ok y =>
    if h : x = y then Decidable.isTrue (by rw [h])
    else Decidable.isFalse (fun hh => h (Except.ok.inj hh))

/-- Model of JavaScript `text.split(/\s+/)` on a list of characters:
split at maximal whitespace runs; a leading run contributes a leading `""`,
a trailing run a trailing `""`, and the empty string yields `[""]`.
`skipping = true` means we are inside a whitespace run (whose token has
already been emitted); `cur` is the reversed current token. -/
def jsSplitWsAux (cs : List Char) (skipping : Bool) (cur : List Char) : List String :=
  match cs with
  | [] => [String.mk cur.reverse]
  | c :: rest =>
    if skipping then
      if c.isWhitespace then jsSplitWsAux rest true []
      else jsSplitWsAux rest false [c]
    else
      if c.isWhitespace then String.mk cur.reverse :: jsSplitWsAux rest true []
      else jsSplitWsAux rest false (c :: cur)

/-- JavaScript `s.split(/\s+/)`. -/
def jsSplitWs (s : String) : List String :=
  jsSplitWsAux s.data false []

/-- JavaScript `s.toLowerCase()`, modelled on the ASCII range (all inputs the
heuristics are exercised on here are ASCII). -/
def jsToLower (s : String) : String :=
  String.mk (s.data.map (fun c => if c.isUpper then Char.ofNat (c.toNat + 32) else c))

/-- JavaScript `s.trim()`: strip leading and trailing whitespace. -/
def jsTrim (s : String) : String :=
  String.mk (((s.data.dropWhile Char.isWhitespace).reverse.dropWhile Char.isWhitespace).reverse)

namespace LiveT

/-- The word list of `LiveTranscriptionService.isEnglishText`
(src/src/utils/liveTranscription.ts line 373), transcribed verbatim,
including the duplicated entry "her". -/
def englishWordsLive : List String :=
  ["the", "and", "is", "are", "was", "were", "have", "has", "had", "will",
   "would", "could", "should", "can", "may", "might", "must", "shall", "do",
   "does", "did", "be", "been", "being", "a", "an", "in", "on", "at", "to",
   "for", "of", "with", "by", "from", "up", "about", "into", "through",
   "during", "before", "after", "above", "below", "between", "among",
   "under", "over", "around", "near", "far", "here", "there", "where",
   "when", "why", "how", "what", "who", "which", "this", "that", "these",
   "those", "i", "you", "he", "she", "it", "we", "they", "me", "him", "her",
   "us", "them", "my", "your", "his", "her", "its", "our", "their"]

/-- Embedding of `LiveTranscriptionService.isEnglishText` (liveTranscription.ts 371–381):
lower-case, split on whitespace, count words from the fixed list, return
`totalWords > 0 && englishWordCount / totalWords > 0.3`.  The division is
JavaScript real division; over a positive count of words the comparison
`englishWordCount / totalWords > 3/10` is the integer comparison
`10 * englishWordCount > 3 * totalWords`, which is how we render it. -/
def isEnglishText (text : String) : Bool :=
  let words := jsSplitWs (jsToLower text)
  let englishWordCount := (words.filter (fun word => englishWordsLive.contains word)).length
  let totalWords := words.length
  decide (totalWords > 0) && decide (10 * englishWordCount > 3 * totalWords)

end LiveT

namespace MedPipe

/-- The word list of `ChatGPTMedicalPipeline.isEnglish`
(src/src/utils/chatGPTMedicalPipeline.ts line 256), transcribed verbatim. -/
def englishWordsMedical : List String :=
  ["the", "and", "is", "are", "was", "were", "have", "has", "had", "will",
   "would", "could", "should"]

/-- Embedding of `ChatGPTMedicalPipeline.isEnglish` (chatGPTMedicalPipeline.ts 254–260):
lower-case, split on whitespace, count words from its own 13-word list,
return `englishWordCount > words.length * 0.1`, rendered exactly as the
integer comparison `10 * englishWordCount > words.length`. -/
def isEnglish (text : String) : Bool :=
  let words := jsSplitWs (jsToLower text)
  let englishWordCount := (words.filter (fun word => englishWordsMedical.contains word)).length
  decide (10 * englishWordCount > words.length)

end MedPipe

/-- Spec-side characterization (spec 4.3, Language Heuristic): the fraction of
whitespace tokens of the lower-cased text that belong to the given word set,
as an exact rational. -/
def matchFraction (wordSet : List String) (text : String) : ℚ :=
  let toks := jsSplitWs (jsToLower text)
  ((toks.countP (fun w => wordSet.contains w) : ℚ)) / ((toks.length : ℚ))

/-- A browser `Blob`: we track its byte size and MIME type; the bytes
themselves are opaque and identified by a tag. -/
structure Blob where
  size : Nat
  type : String
  tag : Nat
  deriving DecidableEq, Repr

/-- A network request the pipeline can emit; functions return the list of
requests they issued, so "no network call" is an observable fact. -/
inductive NetRequest where
  | transcribe (blob : Blob)
  | translate (text sourceLang targetLang : String)
  deriving DecidableEq, Repr

namespace LiveT

/-- Embedding of `LiveTranscriptionConfig` (liveTranscription.ts 14–23). -/
structure LiveConfig where
  sourceLanguage : String
  targetLanguage : String
  chunkDuration : Nat
  overlapDuration : Nat
  minChunkSize : Nat
  maxChunkSize : Nat
  enableVAD : Bool
  silenceThreshold : Nat
  deriving DecidableEq, Repr

/-- The configuration set in the constructor (liveTranscription.ts 49–58). -/
def defaultConfig : LiveConfig :=
  { sourceLanguage := "gu", targetLanguage := "en", chunkDuration := 2000,
    overlapDuration := 500, minChunkSize := 1000, maxChunkSize := 1024 * 1024,
    enableVAD := true, silenceThreshold := 1000 }

/-- Embedding of `AudioChunk` (liveTranscription.ts 25–29). -/
structure AudioChunk where
  data : Blob
  timestamp : Nat
  sequence : Nat
  deriving DecidableEq, Repr

/-- The constant confidence 0.85 attached to every produced result, scored in
hundredths (floating-point numbers enter the model as exact scaled integers;
confidence is never computed with, only stored). -/
def confidence085 : Nat := 85

/-- Embedding of `LiveTranscriptionResult` (liveTranscription.ts 4–12).  The source fields
`isPartial` and `isFinal` are rendered as `partialFlag` and `finalFlag`. -/
structure LiveResult where
  text : String
  originalText : String
  language : String
  confidence : Nat
  timestamp : Nat
  partialFlag : Bool
  finalFlag : Bool
  deriving DecidableEq, Repr

/-- The mutable fields of `LiveTranscriptionService` (liveTranscription.ts
31–41) that the modelled operations read or write. -/
structure LiveState where
  isInitialized : Bool
  audioChunks : List AudioChunk
  isProcessing : Bool
  sequenceCounter : Nat
  results : List LiveResult
  config : LiveConfig
  deriving DecidableEq, Repr

/-- Outcomes of the remote calls awaited during one chunk-processing pass,
plus the current clock.  `Except.error` covers both a network failure and a
non-ok HTTP status; `Except.ok` carries the text field already extracted from
the JSON response (`data.text || ''` resp. `data.translated_text`). -/
structure LiveEnv where
  transcribeResp : Except String String
  translateResp : Except String String
  now : Nat

/-- Embedding of `transcribeAudio` (liveTranscription.ts 297–366): local validation of the
blob, then one POST to the whisper endpoint.  (The intermediate
`arrayBuffer` re-validation cannot fire once `size ≥ 100`.) -/
def transcribeAudio (blob : Blob) (env : LiveEnv) :
    Except String String × List NetRequest :=
  if blob.size = 0 then (.error "Invalid audio blob: empty or null", [])
  else if blob.size < 100 then
    (.error "Audio blob too small (minimum 100 bytes)", [])
  else (env.transcribeResp, [NetRequest.transcribe blob])

/-- Embedding of `translateText` (liveTranscription.ts 386–406): one POST to the
translation endpoint; a non-ok status throws; on success the text falls back
to the input when `data.translated_text` is falsy (empty). -/
def translateText (text sourceLang targetLang : String) (env : LiveEnv) :
    Except String String × List NetRequest :=
  (match env.translateResp with
   | .error e => .error ("Translation API error: " ++ e)
   | .ok t => .ok (if t = "" then text else t),
   [NetRequest.translate text sourceLang targetLang])

/-- Embedding of `processAudioBlob` (liveTranscription.ts 224–292).  Throws when the
service is not initialized; otherwise transcribes, optionally translates
(falling back to the original text if translation throws), and returns the
result — or `none` when no speech was detected or any step failed (the outer
catch turns every failure into `return null`). -/
def processAudioBlob (isInitialized : Bool) (cfg : LiveConfig) (blob : Blob)
    (env : LiveEnv) :
    Except String (Option LiveResult) × List NetRequest :=
  if !isInitialized then
    (.error "Live transcription services are not available. Please ensure Whisper and Translation services are running.", [])
  else
    match transcribeAudio blob env with
    | (.error _, calls) => (.ok none, calls)
    | (.ok originalText, calls) =>
      if (jsTrim originalText).length = 0 then (.ok none, calls)
      else
        let isEnglish := isEnglishText originalText
        if isEnglish then
          (.ok (some { text := originalText, originalText := originalText,
                       language := "en", confidence := confidence085,
                       timestamp := env.now, partialFlag := false,
                       finalFlag := true }), calls)
        else
          let tcall := translateText originalText cfg.sourceLanguage cfg.targetLanguage env
          let translatedText := match tcall.1 with
            | .ok t => t
            | .error _ => originalText
          (.ok (some { text := translatedText, originalText := originalText,
                       language := cfg.sourceLanguage,
                       confidence := confidence085, timestamp := env.now,
                       partialFlag := false, finalFlag := true }),
           calls ++ tcall.2)

/-- Embedding of `processAudioChunks` (liveTranscription.ts 177–216): skip when already
processing or no chunks; otherwise process only the newest chunk, provided it
reaches `config.minChunkSize`; append the produced result to the result log;
keep only the newest chunk.  A thrown error (uninitialized service) is caught
and routed to the error callback, leaving the buffers untouched. -/
def processAudioChunks (s : LiveState) (env : LiveEnv) :
    LiveState × List NetRequest :=
  if s.isProcessing || s.audioChunks.isEmpty then (s, [])
  else
    match s.audioChunks.getLast? with
    | none => (s, [])
    | some latestChunk =>
      if latestChunk.data.size < s.config.minChunkSize then (s, [])
      else
        match processAudioBlob s.isInitialized s.config latestChunk.data env with
        | (.ok (some result), calls) =>
          ({ s with results := s.results ++ [result],
                    audioChunks := [latestChunk] }, calls)
        | (.ok none, calls) => ({ s with audioChunks := [latestChunk] }, calls)
        | (.error _, calls) => (s, calls)

/-- Embedding of `addAudioChunk` (liveTranscription.ts 138–172): reject empty and
below-1000-byte blobs locally (a non-`audio/*` MIME type is only warned
about); otherwise stamp the blob with the next sequence number, buffer it and
process immediately. -/
def addAudioChunk (s : LiveState) (blob : Blob) (env : LiveEnv) :
    LiveState × List NetRequest :=
  if blob.size = 0 then (s, [])
  else if blob.size < 1000 then (s, [])
  else
    let chunk : AudioChunk :=
      { data := blob, timestamp := env.now, sequence := s.sequenceCounter }
    let s1 := { s with audioChunks := s.audioChunks ++ [chunk],
                       sequenceCounter := s.sequenceCounter + 1 }
    processAudioChunks s1 env

/-- Element-wise model of the JavaScript array spread `[...xs]`: a new array
built by pushing each element of `xs` in order. -/
def copySpread {α : Type} (l : List α) : List α :=
  l.foldl (fun acc x => acc ++ [x]) []

/-- Embedding of `getResults` (liveTranscription.ts 420–422): returns `[...this.results]`
and does not touch the state. -/
def getResults (s : LiveState) : List LiveResult × LiveState :=
  (copySpread s.results, s)

/-- Embedding of `getLatestResult` (liveTranscription.ts 427–429): the last element of the
result log, or `null` when the log is empty; does not touch the state. -/
def getLatestResult (s : LiveState) : Option LiveResult × LiveState :=
  (if s.results.length > 0 then s.results.getLast? else none, s)

/-- Embedding of `clearResults` (liveTranscription.ts 434–438). -/
def clearResults (s : LiveState) : LiveState :=
  { s with results := [], audioChunks := [], sequenceCounter := 0 }

/-- Embedding of `flushPendingChunks` (liveTranscription.ts 485–489). -/
def flushPendingChunks (s : LiveState) (env : LiveEnv) :
    LiveState × List NetRequest :=
  if s.audioChunks.length > 0 then processAudioChunks s env else (s, [])

/-- Embedding of `updateConfig` (liveTranscription.ts 412–415), restricted to the
minimum-chunk-size field that the processing path reads. -/
def updateMinChunkSize (s : LiveState) (n : Nat) : LiveState :=
  { s with config := { s.config with minChunkSize := n } }

end LiveT

namespace MultiT

/-- Embedding of `TranscriptionResult` of multilingualTranscription.ts (5–11). -/
structure MTResult where
  originalText : String
  translatedText : String
  language : String
  confidence : Nat
  timestamp : Nat
  deriving DecidableEq, Repr

/-- Outcomes of the two remote calls of one `transcribeGujaratiToEnglish`
invocation, plus the clock. -/
structure MultiEnv where
  transcribeResp : Except String String
  translateResp : Except String String
  now : Nat

/-- Embedding of `transcribeGujaratiToEnglish` (multilingualTranscription.ts 94–117):
throws when uninitialized; otherwise POSTs the blob to whisper (no local size
validation in this module), then POSTs the recognized text for translation;
any failure is re-thrown wrapped in "Transcription failed: ...". -/
def transcribeGujaratiToEnglish (isInitialized : Bool) (blob : Blob)
    (env : MultiEnv) : Except String MTResult × List NetRequest :=
  if !isInitialized then
    (.error "Transcription services are not available. Please ensure Whisper and Translation services are running.", [])
  else
    match env.transcribeResp with
    | .error e =>
      (.error ("Transcription failed: " ++ e), [NetRequest.transcribe blob])
    | .ok gujaratiText =>
      match env.translateResp with
      | .error e =>
        (.error ("Transcription failed: " ++ e),
         [NetRequest.transcribe blob,
          NetRequest.translate gujaratiText "gu" "en"])
      | .ok t =>
        (.ok { originalText := gujaratiText,
               translatedText := if t = "" then gujaratiText else t,
               language := "gu", confidence := LiveT.confidence085,
               timestamp := env.now },
         [NetRequest.transcribe blob,
          NetRequest.translate gujaratiText "gu" "en"])

/-- Embedding of `processAudioStream` (multilingualTranscription.ts 199–207): returns the
translated text, or — on ANY failure — the literal string "Processing...",
swallowing the error. -/
def processAudioStream (isInitialized : Bool) (blob : Blob) (env : MultiEnv) :
    String × List NetRequest :=
  match transcribeGujaratiToEnglish isInitialized blob env with
  | (.ok r, calls) => (r.translatedText, calls)
  | (.error _, calls) => ("Processing...", calls)

end MultiT

namespace RealT

/-- Embedding of `RealtimeTranscriptionConfig` (realtimeTranscription.ts 4–8), without the
endpoint string. -/
structure RtConfig where
  reconnectInterval : Nat
  maxReconnectAttempts : Nat
  deriving DecidableEq, Repr

/-- The default configuration of the constructor (realtimeTranscription.ts
26–29): 5000 ms interval, 5 attempts. -/
def defaultRtConfig : RtConfig :=
  { reconnectInterval := 5000, maxReconnectAttempts := 5 }

/-- Embedding of `TranscriptionResult` of realtimeTranscription.ts (10–14). -/
structure RtResult where
  text : String
  timestamp : Nat
  confidence : Nat
  deriving DecidableEq, Repr

/-- The mutable fields of `RealtimeTranscriptionService` (realtimeTranscription.ts
17–22); `eventSourceOpen` models `eventSource !== null`. -/
structure RtState where
  isInitialized : Bool
  isRecording : Bool
  eventSourceOpen : Bool
  reconnectAttempts : Nat
  deriving DecidableEq, Repr

/-- The state after the constructor and its `initialize()` call
(realtimeTranscription.ts 24–44): recording off, stream closed, zero
attempts; `healthOk` is whether the `/health` probe succeeded. -/
def initState (healthOk : Bool) : RtState :=
  { isInitialized := healthOk, isRecording := false,
    eventSourceOpen := false, reconnectAttempts := 0 }

/-- Embedding of `reinitialize` (realtimeTranscription.ts 297–301): drops the initialized
flag, then re-runs `initialize()`, whose outcome is the new health-probe
result. -/
def reinit (s : RtState) (healthOk : Bool) : RtState :=
  { s with isInitialized := healthOk }

/-- Embedding of `startTranscription` (realtimeTranscription.ts 58–95).  `startFetchOk` is
the outcome of the `POST /start` request.  The second component is the thrown
error, if any. -/
def startTranscription (s : RtState) (startFetchOk : Bool) :
    RtState × Option String :=
  if !s.isInitialized then
    (s, some "Real-time Transcription Service not initialized")
  else if s.isRecording then
    (s, none)
  else if !startFetchOk then
    (s, some "Failed to start real-time transcription")
  else
    ({ s with eventSourceOpen := true, isRecording := true,
              reconnectAttempts := 0 }, none)

/-- Embedding of `stopTranscription` (realtimeTranscription.ts 100–132).  `stopFetchOk` is
the outcome of the `POST /stop` request.  The event stream is closed before
the request; `isRecording` is cleared only on success, and a failure is
re-thrown. -/
def stopTranscription (s : RtState) (stopFetchOk : Bool) :
    RtState × Option String :=
  if !s.isRecording then
    (s, none)
  else
    let s1 := { s with eventSourceOpen := false }
    if stopFetchOk then ({ s1 with isRecording := false }, none)
    else (s1, some "Failed to stop real-time transcription")

/-- Observable events of the streaming channel.  `callerError` models a
delivery to a caller-supplied error callback (the spec's `onError`); the
embedded code never emits it, because `RealtimeTranscriptionService` has no
error callback — its only callback is `transcriptionCallback` for results. -/
inductive RtEvent where
  | consoleError (msg : String)
  | scheduleReconnect (delayMs : Nat)
  | closeStream
  | callerError (msg : String)
  | callbackResult (r : RtResult)
  deriving DecidableEq, Repr

/-- Embedding of `handleReconnect` (realtimeTranscription.ts 266–281): once the attempt
counter has reached the maximum, log to the console and close the stream;
otherwise bump the counter and schedule a retry after the fixed interval
(the retry reopens the stream only while recording). -/
def handleReconnect (cfg : RtConfig) (s : RtState) : RtState × List RtEvent :=
  if s.reconnectAttempts ≥ cfg.maxReconnectAttempts then
    ({ s with eventSourceOpen := false },
     [RtEvent.consoleError "Max reconnection attempts reached",
      RtEvent.closeStream])
  else
    ({ s with reconnectAttempts := s.reconnectAttempts + 1 },
     [RtEvent.scheduleReconnect cfg.reconnectInterval])

/-- One failure cycle of a channel that always fails to connect: if a stream
is open its `onerror` fires and `handleReconnect` runs; a scheduled retry
reopens a stream that will fail again (while recording, the stream stays
present), and `onopen` never fires, so the attempt counter is never reset.
With no open stream nothing happens. -/
def failStep (cfg : RtConfig) (s : RtState) : RtState × List RtEvent :=
  if s.eventSourceOpen then handleReconnect cfg s else (s, [])

/-- Run `n` failure cycles of the always-failing channel, accumulating events. -/
def runFail (cfg : RtConfig) : Nat → RtState → RtState × List RtEvent
  | 0, s => (s, [])
  | n + 1, s =>
    let p := failStep cfg s
    let q := runFail cfg n p.1
    (q.1, p.2 ++ q.2)

/-- Count of terminal errors delivered to a caller-supplied error callback. -/
def countCallerErrors (evs : List RtEvent) : Nat :=
  (evs.filter (fun e => match e with | RtEvent.callerError _ => true | _ => false)).length

/-- Count of scheduled reconnect attempts. -/
def countReconnects (evs : List RtEvent) : Nat :=
  (evs.filter (fun e => match e with | RtEvent.scheduleReconnect _ => true | _ => false)).length

/-- Count of terminal console log lines. -/
def countTerminalLogs (evs : List RtEvent) : Nat :=
  (evs.filter (fun e =>
    match e with
    | RtEvent.consoleError m => m = "Max reconnection attempts reached"
    | _ => false)).length

end RealT

namespace RtUI

/-- The reconciliation log append used by both result sinks
(liveTranscription.ts 199 `this.results.push(result)` and
RealtimeConsultation.tsx 121 `setRealtimeTranscripts(prev => [...prev, result])`):
results are appended in arrival order. -/
def appendResult (log : List RealT.RtResult) (r : RealT.RtResult) :
    List RealT.RtResult :=
  log ++ [r]

/-- Embedding of `stopRecording` (RealtimeConsultation.tsx 152–156): the final transcript
is `allTranscripts.map(t => t.text).join(' ')`, in the order the results sit
in the log. -/
def combinedTranscript (ts : List RealT.RtResult) : String :=
  String.intercalate " " (ts.map (fun t => t.text))

/-- Insert a result into a list sorted by ascending ordering key. -/
def insertByKey (r : RealT.RtResult) : List RealT.RtResult → List RealT.RtResult
  | [] => [r]
  | x :: xs =>
    if r.timestamp ≤ x.timestamp then r :: x :: xs else x :: insertByKey r xs

/-- Sort a result log by ascending ordering key (insertion sort). -/
def sortByKey (l : List RealT.RtResult) : List RealT.RtResult :=
  l.foldr insertByKey []

/-- Modelled from the spec: spec 4.6 / spec 8 ("Ordering invariant") require
`currentTranscript()` to concatenate the results sorted by their sequence
number, not their arrival order.  The streaming results of this repository
carry `timestamp` as their only ordering key (spec 4.6: "ordered log of
results by sequence/timestamp"), so the sequence-sorted transcript is the
join of the texts sorted by that key.  No such sorting exists in src/. -/
def specOrderedTranscript (ts : List RealT.RtResult) : String :=
  String.intercalate " " ((sortByKey ts).map (fun t => t.text))

end RtUI

namespace LiveT

/-- Client-side operations on `LiveTranscriptionService` that touch the chunk
buffer, the sequence counter or the result log. -/
inductive LiveOp where
  | add (blob : Blob) (env : LiveEnv)
  | clear
  | flush (env : LiveEnv)

/-- A blob passes the local acceptance checks of `addAudioChunk` exactly when
it has at least 1000 bytes (a 0-byte blob is also rejected, subsumed). -/
def acceptedBlob (blob : Blob) : Bool :=
  decide (1000 ≤ blob.size)

/-- Run a list of operations, accumulating the sequence numbers assigned to
accepted chunks since the most recent `clearResults` (the accumulator is an
observation, not service state). -/
def liveRun : LiveState → List Nat → List LiveOp → LiveState × List Nat
  | s, acc, [] => (s, acc)
  | s, acc, LiveOp.add blob env :: ops =>
    let acc2 := if acceptedBlob blob then acc ++ [s.sequenceCounter] else acc
    liveRun (addAudioChunk s blob env).1 acc2 ops
  | s, _, LiveOp.clear :: ops => liveRun (clearResults s) [] ops
  | s, acc, LiveOp.flush env :: ops => liveRun (flushPendingChunks s env).1 acc ops

/-- The service state right after the constructor, with the given outcome of
the initial health probes (liveTranscription.ts 35–60). -/
def initLiveState (whisperOk : Bool) : LiveState :=
  { isInitialized := whisperOk, audioChunks := [], isProcessing := false,
    sequenceCounter := 0, results := [], config := defaultConfig }

end LiveT

/-! ## Helper lemmas -/

theorem copySpread_eq_aux {α : Type} (l init : List α) :
    l.foldl (fun acc x => acc ++ [x]) init = init ++ l := by
  induction l generalizing init with
  | nil => simp
  | cons x xs ih => simp [List.foldl_cons, ih]

theorem copySpread_eq {α : Type} (l : List α) : LiveT.copySpread l = l := by
  simp [LiveT.copySpread, copySpread_eq_aux]

theorem foldl_appendResult (rs init : List RealT.RtResult) :
    rs.foldl RtUI.appendResult init = init ++ rs := by
  induction rs generalizing init with
  | nil => simp
  | cons x xs ih => simp [List.foldl_cons, RtUI.appendResult, ih]

/-! ## C1 — transcript ordering -/

/-- C1.  Counterexample: results with ordering keys 1 then 0 arrive out of
order; the code combines them in arrival order ("b a"), while the claim
(concatenation sorted by the ordering key, spec's ordering invariant)
requires "a b". -/
theorem C1_counterexample :
    RtUI.combinedTranscript
      (RtUI.appendResult
        (RtUI.appendResult [] { text := "b", timestamp := 1, confidence := 1 })
        { text := "a", timestamp := 0, confidence := 1 }) = "b a" ∧
    RtUI.specOrderedTranscript
      [{ text := "b", timestamp := 1, confidence := 1 },
       { text := "a", timestamp := 0, confidence := 1 }] = "a b" ∧
    ("b a" : String) ≠ "a b" :=
  ⟨rfl, rfl, by decide⟩

/-- C1 (amended).  The transcript is the concatenation of the results' text
in arrival (append) order, joined with single spaces; no sorting on the
ordering key is performed.  Moreover every result the live pipeline produces
is final and non-partial, so no superseding of partials exists. -/
theorem C1_transcript_is_arrival_order :
    (∀ rs : List RealT.RtResult,
      RtUI.combinedTranscript (rs.foldl RtUI.appendResult []) =
        String.intercalate " " (rs.map (fun t => t.text))) ∧
    (∀ (cfg : LiveT.LiveConfig) (blob : Blob) (env : LiveT.LiveEnv)
        (r : LiveT.LiveResult),
      (LiveT.processAudioBlob true cfg blob env).1 = Except.ok (some r) →
        r.finalFlag = true ∧ r.partialFlag = false) := by
  constructor
  · intro rs
    rw [foldl_appendResult]
    simp [RtUI.combinedTranscript]
  · intro cfg blob env r h
    unfold LiveT.processAudioBlob at h
    simp only [Bool.not_true, Bool.false_eq_true, if_false] at h
    rcases htr : LiveT.transcribeAudio blob env with ⟨res, calls⟩
    rw [htr] at h
    cases res with
    | error e => simp at h
    | ok t =>
      by_cases h0 : (jsTrim t).length = 0
      · simp [h0] at h
      · simp only [h0, if_false] at h
        by_cases he : LiveT.isEnglishText t
        · simp [he] at h
          cases h
          exact ⟨rfl, rfl⟩
        · simp [he] at h
          cases h
          exact ⟨rfl, rfl⟩

/-- C1 witness: a concrete successful English transcription yields a final,
non-partial result. -/
theorem C1_witness :
    (LiveT.processAudioBlob true LiveT.defaultConfig
        { size := 2000, type := "audio/webm", tag := 0 }
        { transcribeResp := Except.ok "the cat is on the mat",
          translateResp := Except.ok "x", now := 7 }).1 =
      Except.ok (some { text := "the cat is on the mat",
                        originalText := "the cat is on the mat",
                        language := "en", confidence := LiveT.confidence085,
                        timestamp := 7, partialFlag := false,
                        finalFlag := true }) ∧
    ({ text := "the cat is on the mat",
       originalText := "the cat is on the mat", language := "en",
       confidence := LiveT.confidence085, timestamp := 7,
       partialFlag := false, finalFlag := true } : LiveT.LiveResult).finalFlag = true := by
  have h := C1_transcript_is_arrival_order
  refine ⟨by decide, ?_⟩
  exact (h.2 LiveT.defaultConfig
    { size := 2000, type := "audio/webm", tag := 0 }
    { transcribeResp := Except.ok "the cat is on the mat",
      translateResp := Except.ok "x", now := 7 } _ (by decide)).1

/-! ## C3 — small inputs never reach the network -/

theorem getLast?_append_singleton {α : Type} (l : List α) (a : α) :
    (l ++ [a]).getLast? = some a := by
  simp [List.getLast?_concat]

theorem isEmpty_append_singleton {α : Type} (l : List α) (a : α) :
    (l ++ [a]).isEmpty = false := by
  cases l <;> rfl

/-- C3.  A blob below the configured minimum chunk size never causes a
network request when submitted: `addAudioChunk` emits no request (below 1000
bytes it is rejected outright, leaving the state untouched; between 1000
bytes and the configured minimum it is buffered but `processAudioChunks`
declines to process it). -/
theorem C3_small_chunk_no_network (s : LiveT.LiveState) (blob : Blob)
    (env : LiveT.LiveEnv) (h : blob.size < s.config.minChunkSize) :
    (LiveT.addAudioChunk s blob env).2 = [] ∧
    (blob.size < 1000 → (LiveT.addAudioChunk s blob env).1 = s) := by
  unfold LiveT.addAudioChunk
  by_cases h0 : blob.size = 0
  · simp [h0]
  · by_cases h1 : blob.size < 1000
    · simp [h0, h1]
    · simp only [h0, h1, if_false]
      refine ⟨?_, fun hc => hc.elim⟩
      unfold LiveT.processAudioChunks
      by_cases hp : s.isProcessing
      · simp [hp]
      · simp only [hp, Bool.false_or, isEmpty_append_singleton,
                   getLast?_append_singleton, if_false]
        simp [h]

/-- C3 witness: a 500-byte blob under the default 1000-byte minimum triggers
no request and leaves the state unchanged. -/
theorem C3_witness :
    500 < (LiveT.initLiveState true).config.minChunkSize ∧
    (LiveT.addAudioChunk (LiveT.initLiveState true)
      { size := 500, type := "audio/webm", tag := 0 }
      { transcribeResp := Except.ok "x", translateResp := Except.ok "y",
        now := 0 }).2 = [] ∧
    (LiveT.addAudioChunk (LiveT.initLiveState true)
      { size := 500, type := "audio/webm", tag := 0 }
      { transcribeResp := Except.ok "x", translateResp := Except.ok "y",
        now := 0 }).1 = LiveT.initLiveState true := by
  have h := C3_small_chunk_no_network (LiveT.initLiveState true)
    { size := 500, type := "audio/webm", tag := 0 }
    { transcribeResp := Except.ok "x", translateResp := Except.ok "y",
      now := 0 } (by decide)
  exact ⟨by decide, h.1, h.2 (by decide)⟩

/-! ## C4 — behaviour on processing failure -/

/-- C4.  Counterexample: with the transcription endpoint failing (both
responses are transport errors), `processAudioStream` of the multilingual
service delivers the literal fallback text "Processing..." to its caller —
fabricated text that came from no transcription or translation response —
while the underlying step had failed with an error that is thereby hidden. -/
theorem C4_counterexample :
    (MultiT.processAudioStream true { size := 2000, type := "audio/wav", tag := 0 }
      { transcribeResp := Except.error "TypeError: Failed to fetch",
        translateResp := Except.error "TypeError: Failed to fetch",
        now := 0 }).1 = "Processing..." ∧
    (MultiT.transcribeGujaratiToEnglish true
      { size := 2000, type := "audio/wav", tag := 0 }
      { transcribeResp := Except.error "TypeError: Failed to fetch",
        translateResp := Except.error "TypeError: Failed to fetch",
        now := 0 }).1 =
      Except.error "Transcription failed: TypeError: Failed to fetch" :=
  ⟨rfl, rfl⟩

/-- C4 (amended).  The live service never fabricates text: on a failed
transcription step `processAudioBlob` yields no result at all (`ok none` —
the failure is logged and swallowed, not surfaced).  The multilingual
service's `processAudioStream`, by contrast, fabricates the fallback text
"Processing..." on any failed step. -/
theorem C4_failure_behavior :
    (∀ (cfg : LiveT.LiveConfig) (blob : Blob) (env : LiveT.LiveEnv) (e : String),
      env.transcribeResp = Except.error e →
        (LiveT.processAudioBlob true cfg blob env).1 = Except.ok none) ∧
    (∀ (blob : Blob) (env : MultiT.MultiEnv) (e : String),
      env.transcribeResp = Except.error e →
        (MultiT.processAudioStream true blob env).1 = "Processing...") := by
  constructor
  · intro cfg blob env e htr
    unfold LiveT.processAudioBlob LiveT.transcribeAudio
    by_cases h0 : blob.size = 0
    · simp [h0]
    · by_cases h1 : blob.size < 100
      · simp [h0, h1]
      · simp [h0, h1, htr]
  · intro blob env e htr
    unfold MultiT.processAudioStream MultiT.transcribeGujaratiToEnglish
    simp [htr]

/-- C4 witness: concrete failing environments exercise both halves. -/
theorem C4_witness :
    (LiveT.processAudioBlob true LiveT.defaultConfig
      { size := 2000, type := "audio/webm", tag := 1 }
      { transcribeResp := Except.error "HTTP 500",
        translateResp := Except.ok "x", now := 3 }).1 = Except.ok none ∧
    (MultiT.processAudioStream true { size := 2000, type := "audio/wav", tag := 1 }
      { transcribeResp := Except.error "HTTP 500",
        translateResp := Except.ok "x", now := 3 }).1 = "Processing..." := by
  have h := C4_failure_behavior
  exact ⟨h.1 LiveT.defaultConfig { size := 2000, type := "audio/webm", tag := 1 }
      { transcribeResp := Except.error "HTTP 500",
        translateResp := Except.ok "x", now := 3 } "HTTP 500" rfl,
    h.2 { size := 2000, type := "audio/wav", tag := 1 }
      { transcribeResp := Except.error "HTTP 500",
        translateResp := Except.ok "x", now := 3 } "HTTP 500" rfl⟩

/-! ## C5 — translation failure degrades to the original text -/

/-- C5.  If the service is initialized, transcription succeeds with nonempty
non-English text, and the translation call fails, the pipeline still
produces a result whose text is the original untranslated recognized text —
not an error and not an empty transcript. -/
theorem C5_translation_failure_uses_original (cfg : LiveT.LiveConfig)
    (blob : Blob) (env : LiveT.LiveEnv) (t e : String)
    (hsz : 100 ≤ blob.size) (htr : env.transcribeResp = Except.ok t)
    (hne : (jsTrim t).length ≠ 0) (heng : LiveT.isEnglishText t = false)
    (htl : env.translateResp = Except.error e) :
    (LiveT.processAudioBlob true cfg blob env).1 =
      Except.ok (some { text := t, originalText := t,
                        language := cfg.sourceLanguage,
                        confidence := LiveT.confidence085,
                        timestamp := env.now, partialFlag := false,
                        finalFlag := true }) := by
  unfold LiveT.processAudioBlob LiveT.transcribeAudio
  have h0 : ¬ blob.size = 0 := by omega
  have h1 : ¬ blob.size < 100 := by omega
  simp [h0, h1, htr, hne, heng, LiveT.translateText, htl]

/-- C5 witness: Gujarati text with an unreachable translation endpoint comes
through untranslated. -/
theorem C5_witness :
    (LiveT.processAudioBlob true LiveT.defaultConfig
      { size := 2000, type := "audio/webm", tag := 0 }
      { transcribeResp := Except.ok "namaste kem cho",
        translateResp := Except.error "ECONNREFUSED", now := 5 }).1 =
      Except.ok (some { text := "namaste kem cho",
                        originalText := "namaste kem cho", language := "gu",
                        confidence := LiveT.confidence085, timestamp := 5,
                        partialFlag := false, finalFlag := true }) :=
  C5_translation_failure_uses_original LiveT.defaultConfig
    { size := 2000, type := "audio/webm", tag := 0 }
    { transcribeResp := Except.ok "namaste kem cho",
      translateResp := Except.error "ECONNREFUSED", now := 5 }
    "namaste kem cho" "ECONNREFUSED" (by decide) rfl (by decide) (by decide) rfl

/-! ## C7 — stop is idempotent -/

/-- C7.  Calling `stopTranscription` when not recording is a no-op and not an
error; after a stop that did not throw, a second stop (under any fetch
outcome) is a no-op and not an error; and under a fixed fetch outcome, two
consecutive stops end in the same state as one. -/
theorem C7_stop_idempotent (s : RealT.RtState) (ok ok2 : Bool) :
    (s.isRecording = false → RealT.stopTranscription s ok = (s, none)) ∧
    ((RealT.stopTranscription s ok).2 = none →
      RealT.stopTranscription (RealT.stopTranscription s ok).1 ok2 =
        ((RealT.stopTranscription s ok).1, none)) ∧
    (RealT.stopTranscription (RealT.stopTranscription s ok).1 ok).1 =
      (RealT.stopTranscription s ok).1 := by
  rcases s with ⟨i, rec, o, a⟩
  cases rec <;> cases ok <;> cases ok2 <;>
    simp [RealT.stopTranscription]

/-- C7 witness: stop on an idle service is a no-op; double stop on a
capturing service equals single stop. -/
theorem C7_witness :
    RealT.stopTranscription (RealT.initState true) true =
      (RealT.initState true, none) ∧
    (RealT.stopTranscription
      (RealT.stopTranscription
        { isInitialized := true, isRecording := true, eventSourceOpen := true,
          reconnectAttempts := 0 } true).1 true).1 =
    (RealT.stopTranscription
      { isInitialized := true, isRecording := true, eventSourceOpen := true,
        reconnectAttempts := 0 } true).1 := by
  refine ⟨(C7_stop_idempotent (RealT.initState true) true true).1 rfl, ?_⟩
  exact (C7_stop_idempotent
    { isInitialized := true, isRecording := true, eventSourceOpen := true,
      reconnectAttempts := 0 } true true).2.2

/-! ## C8 — start while capturing -/

/-- C8.  Counterexample: the capturing-but-uninitialized state is reachable
(start succeeds, then `reinitialize` runs with a failing health probe while
still recording); in it, `startTranscription` throws the initialization
error instead of being a silent no-op. -/
theorem C8_counterexample :
    (RealT.reinit (RealT.startTranscription (RealT.initState true) true).1
      false).isRecording = true ∧
    (RealT.startTranscription
      (RealT.reinit (RealT.startTranscription (RealT.initState true) true).1
        false) true).2 =
      some "Real-time Transcription Service not initialized" := by decide

/-- C8 (amended).  `startTranscription` while recording never changes the
state (no new session, no state change, no new subscription); provided the
service is still initialized it is moreover a silent no-op (no error). -/
theorem C8_start_noop_when_capturing (s : RealT.RtState) (ok : Bool)
    (h : s.isRecording = true) :
    (RealT.startTranscription s ok).1 = s ∧
    (s.isInitialized = true → RealT.startTranscription s ok = (s, none)) := by
  rcases s with ⟨i, rec, o, a⟩
  cases rec with
  | false => cases h
  | true => cases i <;> cases ok <;> simp [RealT.startTranscription]

/-- C8 witness: a second start on a healthy capturing session is a silent
no-op. -/
theorem C8_witness :
    RealT.startTranscription
      { isInitialized := true, isRecording := true, eventSourceOpen := true,
        reconnectAttempts := 0 } true =
    ({ isInitialized := true, isRecording := true, eventSourceOpen := true,
       reconnectAttempts := 0 }, none) :=
  (C8_start_noop_when_capturing
    { isInitialized := true, isRecording := true, eventSourceOpen := true,
      reconnectAttempts := 0 } true rfl).2 rfl

/-! ## C9 — observers are pure -/

/-- C9.  `getResults` returns a fresh element-wise copy of the result log —
extensionally equal to the log — and leaves the state unchanged;
`getLatestResult` leaves the state unchanged, returns `none` exactly when
the log is empty, and otherwise the most recently appended result. -/
theorem C9_observers_pure (s : LiveT.LiveState) :
    LiveT.getResults s = (s.results, s) ∧
    (LiveT.getLatestResult s).2 = s ∧
    ((LiveT.getLatestResult s).1 = none ↔ s.results = []) ∧
    (∀ (l : List LiveT.LiveResult) (r : LiveT.LiveResult),
      s.results = l ++ [r] → (LiveT.getLatestResult s).1 = some r) := by
  refine ⟨?_, rfl, ?_, ?_⟩
  · simp [LiveT.getResults, copySpread_eq]
  · unfold LiveT.getLatestResult
    cases hres : s.results with
    | nil => simp [hres]
    | cons x xs => simp [hres, List.getLast?_eq_none_iff]
  · intro l r hlr
    unfold LiveT.getLatestResult
    simp [hlr, getLast?_append_singleton]

/-- C9 witness: on a two-result log both observers evaluate as claimed. -/
theorem C9_witness :
    LiveT.getResults
      { LiveT.initLiveState true with
        results := [{ text := "a", originalText := "a", language := "en",
                      confidence := 85, timestamp := 1, partialFlag := false,
                      finalFlag := true },
                    { text := "b", originalText := "b", language := "en",
                      confidence := 85, timestamp := 2, partialFlag := false,
                      finalFlag := true }] } =
      ([{ text := "a", originalText := "a", language := "en",
          confidence := 85, timestamp := 1, partialFlag := false,
          finalFlag := true },
        { text := "b", originalText := "b", language := "en",
          confidence := 85, timestamp := 2, partialFlag := false,
          finalFlag := true }],
       { LiveT.initLiveState true with
         results := [{ text := "a", originalText := "a", language := "en",
                       confidence := 85, timestamp := 1, partialFlag := false,
                       finalFlag := true },
                     { text := "b", originalText := "b", language := "en",
                       confidence := 85, timestamp := 2, partialFlag := false,
                       finalFlag := true }] }) ∧
    (LiveT.getLatestResult
      { LiveT.initLiveState true with
        results := [{ text := "a", originalText := "a", language := "en",
                      confidence := 85, timestamp := 1, partialFlag := false,
                      finalFlag := true },
                    { text := "b", originalText := "b", language := "en",
                      confidence := 85, timestamp := 2, partialFlag := false,
                      finalFlag := true }] }).1 =
      some { text := "b", originalText := "b", language := "en",
             confidence := 85, timestamp := 2, partialFlag := false,
             finalFlag := true } := by
  have h := C9_observers_pure
    { LiveT.initLiveState true with
      results := [{ text := "a", originalText := "a", language := "en",
                    confidence := 85, timestamp := 1, partialFlag := false,
                    finalFlag := true },
                  { text := "b", originalText := "b", language := "en",
                    confidence := 85, timestamp := 2, partialFlag := false,
                    finalFlag := true }] }
  exact ⟨h.1, h.2.2.2 [{ text := "a", originalText := "a", language := "en",
                         confidence := 85, timestamp := 1,
                         partialFlag := false, finalFlag := true }] _ rfl⟩

/-! ## C6 — the language heuristic -/

theorem jsSplitWsAux_ne_nil (cs : List Char) :
    ∀ (skipping : Bool) (cur : List Char), jsSplitWsAux cs skipping cur ≠ [] := by
  induction cs with
  | nil => intro sk cur; simp [jsSplitWsAux]
  | cons c rest ih =>
    intro sk cur
    cases sk with
    | true =>
      by_cases hw : c.isWhitespace
      · simpa [jsSplitWsAux, hw] using ih true []
      · simpa [jsSplitWsAux, hw] using ih false [c]
    | false =>
      by_cases hw : c.isWhitespace
      · simp [jsSplitWsAux, hw]
      · simpa [jsSplitWsAux, hw] using ih false (c :: cur)

theorem jsSplitWs_length_pos (s : String) : 0 < (jsSplitWs s).length :=
  List.length_pos.mpr (jsSplitWsAux_ne_nil s.data false [])

theorem fraction_gt_iff (a b num den : Nat) (hb : 0 < b) (hden : 0 < den) :
    ((num : ℚ) / (den : ℚ) < (a : ℚ) / (b : ℚ)) ↔ num * b < a * den := by
  rw [div_lt_div_iff₀ (by exact_mod_cast hden) (by exact_mod_cast hb)]
  norm_cast

/-- C6.  Counterexample: on a text made exclusively of common English
function words the live-transcription site classifies English while the
medical-pipeline site does not, because the two sites do not share one
"fixed closed set of roughly 60 common English function words": the medical
site's own list has only 13 entries (and the live site's has 83). -/
theorem C6_counterexample :
    MedPipe.isEnglish "i you he she it we they" = false ∧
    LiveT.isEnglishText "i you he she it we they" = true ∧
    MedPipe.englishWordsMedical.length = 13 := by decide

/-- C6 (amended).  Each call site splits on whitespace, lower-cases, counts
tokens belonging to its own fixed word list and compares the matching
fraction with its own threshold: the live site returns true exactly when the
fraction exceeds 0.3 (its nonempty-token guard is vacuous since splitting
always yields at least one token), the medical site exactly when the
fraction exceeds 0.1; the lists differ per site — 83 entries (82 distinct)
at the live site, 13 at the medical site. -/
theorem C6_heuristic_characterization :
    (∀ text : String, LiveT.isEnglishText text =
      decide (matchFraction LiveT.englishWordsLive text > 3 / 10)) ∧
    (∀ text : String, MedPipe.isEnglish text =
      decide (matchFraction MedPipe.englishWordsMedical text > 1 / 10)) ∧
    LiveT.englishWordsLive.length = 83 ∧
    MedPipe.englishWordsMedical.length = 13 := by
  refine ⟨?_, ?_, by decide, by decide⟩
  · intro text
    have hpos : 0 < (jsSplitWs (jsToLower text)).length := jsSplitWs_length_pos _
    have h1 := fraction_gt_iff
      ((jsSplitWs (jsToLower text)).filter
        (fun w => LiveT.englishWordsLive.contains w)).length
      (jsSplitWs (jsToLower text)).length 3 10 hpos (by norm_num)
    unfold LiveT.isEnglishText matchFraction
    simp only [gt_iff_lt, List.countP_eq_length_filter, decide_eq_true hpos,
               Bool.true_and]
    refine decide_eq_decide.mpr ?_
    constructor
    · intro h
      exact h1.mpr (by omega)
    · intro h
      have := h1.mp h
      omega
  · intro text
    have hpos : 0 < (jsSplitWs (jsToLower text)).length := jsSplitWs_length_pos _
    have h1 := fraction_gt_iff
      ((jsSplitWs (jsToLower text)).filter
        (fun w => MedPipe.englishWordsMedical.contains w)).length
      (jsSplitWs (jsToLower text)).length 1 10 hpos (by norm_num)
    unfold MedPipe.isEnglish matchFraction
    simp only [gt_iff_lt, List.countP_eq_length_filter]
    refine decide_eq_decide.mpr ?_
    constructor
    · intro h
      exact h1.mpr (by omega)
    · intro h
      have := h1.mp h
      omega

/-! ## C2 — reconnect bound -/

theorem runFail_closed (cfg : RealT.RtConfig) (n : Nat) :
    ∀ s : RealT.RtState, s.eventSourceOpen = false →
      RealT.runFail cfg n s = (s, []) := by
  induction n with
  | zero => intro s _; rfl
  | succ n ih =>
    intro s h
    simp only [RealT.runFail, RealT.failStep, h, Bool.false_eq_true, if_false]
    simpa using ih s h

theorem countCallerErrors_append (a b : List RealT.RtEvent) :
    RealT.countCallerErrors (a ++ b) =
      RealT.countCallerErrors a + RealT.countCallerErrors b := by
  simp [RealT.countCallerErrors, List.filter_append]

theorem countReconnects_append (a b : List RealT.RtEvent) :
    RealT.countReconnects (a ++ b) =
      RealT.countReconnects a + RealT.countReconnects b := by
  simp [RealT.countReconnects, List.filter_append]

theorem countTerminalLogs_append (a b : List RealT.RtEvent) :
    RealT.countTerminalLogs (a ++ b) =
      RealT.countTerminalLogs a + RealT.countTerminalLogs b := by
  simp [RealT.countTerminalLogs, List.filter_append]

theorem runFail_spec (cfg : RealT.RtConfig) :
    ∀ (n : Nat) (s : RealT.RtState), s.eventSourceOpen = true →
      s.reconnectAttempts ≤ cfg.maxReconnectAttempts →
      RealT.countReconnects (RealT.runFail cfg n s).2 =
        min n (cfg.maxReconnectAttempts - s.reconnectAttempts) ∧
      RealT.countCallerErrors (RealT.runFail cfg n s).2 = 0 ∧
      RealT.countTerminalLogs (RealT.runFail cfg n s).2 =
        (if cfg.maxReconnectAttempts - s.reconnectAttempts < n then 1 else 0) ∧
      (RealT.runFail cfg n s).1.reconnectAttempts =
        s.reconnectAttempts + min n (cfg.maxReconnectAttempts - s.reconnectAttempts) ∧
      (RealT.runFail cfg n s).1.eventSourceOpen =
        decide (n ≤ cfg.maxReconnectAttempts - s.reconnectAttempts) := by
  intro n
  induction n with
  | zero =>
    intro s ho _
    simp [RealT.runFail, RealT.countReconnects, RealT.countCallerErrors,
          RealT.countTerminalLogs, ho]
  | succ n ih =>
    intro s ho ha
    by_cases hterm : cfg.maxReconnectAttempts ≤ s.reconnectAttempts
    · have hm : cfg.maxReconnectAttempts - s.reconnectAttempts = 0 := by omega
      have hstep : RealT.failStep cfg s =
          ({ s with eventSourceOpen := false },
           [RealT.RtEvent.consoleError "Max reconnection attempts reached",
            RealT.RtEvent.closeStream]) := by
        simp [RealT.failStep, ho, RealT.handleReconnect, hterm]
      have hrest := runFail_closed cfg n { s with eventSourceOpen := false } rfl
      simp only [RealT.runFail, hstep, hrest]
      refine ⟨?_, ?_, ?_, ?_, ?_⟩ <;>
        simp [RealT.countReconnects, RealT.countCallerErrors,
              RealT.countTerminalLogs, hm]
    · have hlt : s.reconnectAttempts < cfg.maxReconnectAttempts := by omega
      have hstep : RealT.failStep cfg s =
          ({ s with reconnectAttempts := s.reconnectAttempts + 1 },
           [RealT.RtEvent.scheduleReconnect cfg.reconnectInterval]) := by
        simp [RealT.failStep, ho, RealT.handleReconnect, Nat.not_le.mpr hlt]
      have ih2 := ih { s with reconnectAttempts := s.reconnectAttempts + 1 }
        ho (by simpa using hlt)
      simp only [RealT.runFail, hstep] at *
      obtain ⟨i1, i2, i3, i4, i5⟩ := ih2
      refine ⟨?_, ?_, ?_, ?_, ?_⟩
      · rw [countReconnects_append, i1]
        simp [RealT.countReconnects]
        omega
      · rw [countCallerErrors_append, i2]
        simp [RealT.countCallerErrors]
      · rw [countTerminalLogs_append, i3]
        have hz : RealT.countTerminalLogs
            [RealT.RtEvent.scheduleReconnect cfg.reconnectInterval] = 0 := rfl
        rw [hz]
        split_ifs <;> omega
      · rw [i4]
        omega
      · rw [i5]
        refine decide_eq_decide.mpr ?_
        omega

/-- C2.  Counterexample: with the default configuration (5 attempts), a
channel that always fails retries 5 times and then stops (stream closed,
terminal condition logged once to the console), but delivers ZERO errors to
any caller-supplied error callback — the claim requires exactly one terminal
error surfaced via the error callback.  (`RealtimeTranscriptionService` has
no error callback at all.) -/
theorem C2_counterexample :
    RealT.countReconnects (RealT.runFail RealT.defaultRtConfig 10
      { isInitialized := true, isRecording := true, eventSourceOpen := true,
        reconnectAttempts := 0 }).2 = 5 ∧
    RealT.countTerminalLogs (RealT.runFail RealT.defaultRtConfig 10
      { isInitialized := true, isRecording := true, eventSourceOpen := true,
        reconnectAttempts := 0 }).2 = 1 ∧
    RealT.countCallerErrors (RealT.runFail RealT.defaultRtConfig 10
      { isInitialized := true, isRecording := true, eventSourceOpen := true,
        reconnectAttempts := 0 }).2 = 0 ∧
    RealT.countCallerErrors (RealT.runFail RealT.defaultRtConfig 10
      { isInitialized := true, isRecording := true, eventSourceOpen := true,
        reconnectAttempts := 0 }).2 ≠ 1 ∧
    (RealT.runFail RealT.defaultRtConfig 10
      { isInitialized := true, isRecording := true, eventSourceOpen := true,
        reconnectAttempts := 0 }).1.eventSourceOpen = false := by decide

/-- C2 (amended).  Against an always-failing channel the service retries at
the fixed interval at most `maxReconnectAttempts` times, then stops retrying
and closes the stream, logging the terminal condition once to the console;
no terminal error is surfaced to the caller through an error callback (the
service has none). -/
theorem C2_reconnect_bound (cfg : RealT.RtConfig) (n : Nat) (i : Bool) :
    RealT.countReconnects (RealT.runFail cfg n
      { isInitialized := i, isRecording := true, eventSourceOpen := true,
        reconnectAttempts := 0 }).2 = min n cfg.maxReconnectAttempts ∧
    RealT.countCallerErrors (RealT.runFail cfg n
      { isInitialized := i, isRecording := true, eventSourceOpen := true,
        reconnectAttempts := 0 }).2 = 0 ∧
    RealT.countTerminalLogs (RealT.runFail cfg n
      { isInitialized := i, isRecording := true, eventSourceOpen := true,
        reconnectAttempts := 0 }).2 =
      (if cfg.maxReconnectAttempts < n then 1 else 0) ∧
    (RealT.runFail cfg n
      { isInitialized := i, isRecording := true, eventSourceOpen := true,
        reconnectAttempts := 0 }).1.eventSourceOpen =
      decide (n ≤ cfg.maxReconnectAttempts) := by
  have h := runFail_spec cfg n
    { isInitialized := i, isRecording := true, eventSourceOpen := true,
      reconnectAttempts := 0 } rfl (Nat.zero_le _)
  obtain ⟨h1, h2, h3, h4, h5⟩ := h
  exact ⟨by simpa using h1, h2, by simpa using h3, by simpa using h5⟩

/-! ## C10 — sequence numbering -/

theorem processAudioChunks_counter (s : LiveT.LiveState) (env : LiveT.LiveEnv) :
    (LiveT.processAudioChunks s env).1.sequenceCounter = s.sequenceCounter := by
  unfold LiveT.processAudioChunks
  split
  · rfl
  · split
    · rfl
    · split
      · rfl
      · split <;> rfl

theorem flushPendingChunks_counter (s : LiveT.LiveState) (env : LiveT.LiveEnv) :
    (LiveT.flushPendingChunks s env).1.sequenceCounter = s.sequenceCounter := by
  unfold LiveT.flushPendingChunks
  split
  · exact processAudioChunks_counter s env
  · rfl

theorem addAudioChunk_counter (s : LiveT.LiveState) (blob : Blob)
    (env : LiveT.LiveEnv) :
    (LiveT.addAudioChunk s blob env).1.sequenceCounter =
      (if LiveT.acceptedBlob blob then s.sequenceCounter + 1
       else s.sequenceCounter) := by
  unfold LiveT.addAudioChunk LiveT.acceptedBlob
  by_cases h0 : blob.size = 0
  · simp [h0]
  · by_cases h1 : blob.size < 1000
    · have : ¬ 1000 ≤ blob.size := by omega
      simp [h0, h1, this]
    · have hge : 1000 ≤ blob.size := by omega
      simp [h0, h1, hge, processAudioChunks_counter]

theorem liveRun_range (ops : List LiveT.LiveOp) :
    ∀ (s : LiveT.LiveState) (acc : List Nat),
      acc = List.range s.sequenceCounter →
      (LiveT.liveRun s acc ops).2 =
        List.range (LiveT.liveRun s acc ops).1.sequenceCounter := by
  induction ops with
  | nil => intro s acc h; simpa [LiveT.liveRun] using h
  | cons op rest ih =>
    intro s acc h
    cases op with
    | add blob env =>
      simp only [LiveT.liveRun]
      apply ih
      rw [addAudioChunk_counter]
      by_cases hacc : LiveT.acceptedBlob blob
      · simp [hacc, h, List.range_succ]
      · simp [hacc, h]
    | clear =>
      simp only [LiveT.liveRun]
      apply ih
      simp [LiveT.clearResults]
    | flush env =>
      simp only [LiveT.liveRun]
      apply ih
      rw [flushPendingChunks_counter]
      exact h

/-- C10.  Over any sequence of adds, flushes and clears starting from a
fresh counter, the sequence numbers stamped on accepted chunks since the
most recent `clearResults` are exactly `0, 1, …, k-1` in order (consecutive,
strictly increasing from 0); and `clearResults` simultaneously empties the
result log and the chunk buffer and resets the counter to 0. -/
theorem C10_sequence_numbering :
    (∀ (ops : List LiveT.LiveOp) (s0 : LiveT.LiveState),
      s0.sequenceCounter = 0 →
      (LiveT.liveRun s0 [] ops).2 =
        List.range (LiveT.liveRun s0 [] ops).1.sequenceCounter) ∧
    (∀ s : LiveT.LiveState,
      (LiveT.clearResults s).results = [] ∧
      (LiveT.clearResults s).audioChunks = [] ∧
      (LiveT.clearResults s).sequenceCounter = 0) := by
  constructor
  · intro ops s0 h0
    exact liveRun_range ops s0 [] (by simp [h0])
  · intro s
    exact ⟨rfl, rfl, rfl⟩

/-- C10 witness: two accepted chunks, a rejected one, a clear, then one more
accepted chunk; the assigned sequences since the clear are `[0]`. -/
theorem C10_witness :
    (LiveT.liveRun (LiveT.initLiveState true) []
      [LiveT.LiveOp.add { size := 2000, type := "audio/webm", tag := 0 }
        { transcribeResp := Except.error "x", translateResp := Except.error "x",
          now := 0 },
       LiveT.LiveOp.add { size := 500, type := "audio/webm", tag := 1 }
        { transcribeResp := Except.error "x", translateResp := Except.error "x",
          now := 1 },
       LiveT.LiveOp.add { size := 3000, type := "audio/webm", tag := 2 }
        { transcribeResp := Except.error "x", translateResp := Except.error "x",
          now := 2 },
       LiveT.LiveOp.clear,
       LiveT.LiveOp.add { size := 4000, type := "audio/webm", tag := 3 }
        { transcribeResp := Except.error "x", translateResp := Except.error "x",
          now := 3 }]).2 =
      List.range (LiveT.liveRun (LiveT.initLiveState true) []
      [LiveT.LiveOp.add { size := 2000, type := "audio/webm", tag := 0 }
        { transcribeResp := Except.error "x", translateResp := Except.error "x",
          now := 0 },
       LiveT.LiveOp.add { size := 500, type := "audio/webm", tag := 1 }
        { transcribeResp := Except.error "x", translateResp := Except.error "x",
          now := 1 },
       LiveT.LiveOp.add { size := 3000, type := "audio/webm", tag := 2 }
        { transcribeResp := Except.error "x", translateResp := Except.error "x",
          now := 2 },
       LiveT.LiveOp.clear,
       LiveT.LiveOp.add { size := 4000, type := "audio/webm", tag := 3 }
        { transcribeResp := Except.error "x", translateResp := Except.error "x",
          now := 3 }]).1.sequenceCounter ∧
    (LiveT.liveRun (LiveT.initLiveState true) []
      [LiveT.LiveOp.add { size := 2000, type := "audio/webm", tag := 0 }
        { transcribeResp := Except.error "x", translateResp := Except.error "x",
          now := 0 },
       LiveT.LiveOp.add { size := 500, type := "audio/webm", tag := 1 }
        { transcribeResp := Except.error "x", translateResp := Except.error "x",
          now := 1 },
       LiveT.LiveOp.add { size := 3000, type := "audio/webm", tag := 2 }
        { transcribeResp := Except.error "x", translateResp := Except.error "x",
          now := 2 },
       LiveT.LiveOp.clear,
       LiveT.LiveOp.add { size := 4000, type := "audio/webm", tag := 3 }
        { transcribeResp := Except.error "x", translateResp := Except.error "x",
          now := 3 }]).2 = [0] := by
  refine ⟨C10_sequence_numbering.1 _ (LiveT.initLiveState true) rfl, ?_⟩
  decide
